import Mathlib

/-!
Verification of the URL-configuration utilities of the FeedbackFullStack
repository: a server-side resolver (Backend/utils/urlConfig.js) and a
client-side resolver (frontend/src/config/urlConfig.ts).  Both modules are
pure functions from an environment snapshot to URL strings or to an ordered
list of CORS origin matchers; we embed them shallowly and prove the spec
claims about them.
-/

namespace UrlConfig

/-- JavaScript truthiness of an environment variable: a variable is truthy
exactly when it is set and non-empty (environment values are strings). -/
def truthy (v : Option String) : Bool :=
  match v with
  | some s => s != ""
  | none => false

/-- The JavaScript idiom `v || d` on an environment variable: the value when
truthy, the default otherwise. -/
def jsOr (v : Option String) (d : String) : String :=
  match v with
  | some s => if s = "" then d else s
  | none => d

/-- Containment of one character list inside another, scanning left to
right. -/
def containsChars (sub : List Char) : List Char → Bool
  | [] => sub.isEmpty
  | c :: rest => sub.isPrefixOf (c :: rest) || containsChars sub rest

/-- JavaScript String.prototype.includes: substring containment. -/
def jsIncludes (s sub : String) : Bool :=
  containsChars sub.toList s.toList

/-- JavaScript String.prototype.startsWith: prefix test. -/
def jsStartsWith (s pre : String) : Bool :=
  pre.toList.isPrefixOf s.toList

/-- End-anchored suffix test, as performed by a regular expression whose
pattern ends in the dollar anchor: the string ends with the given suffix. -/
def jsEndsWith (s suff : String) : Bool :=
  suff.toList.reverse.isPrefixOf s.toList.reverse

/-! ## Server-side resolver (Backend/utils/urlConfig.js) -/

/-- The environment snapshot read by the backend module: each field is the
value of the process environment variable of the same name, `none` when the
variable is unset. -/
structure BackendEnv where
  FRONTEND_URL : Option String
  NODE_ENV : Option String
  RENDER : Option String
  RENDER_SERVICE_NAME : Option String
  RENDER_EXTERNAL_URL : Option String
  PORT : Option String
  HOST : Option String
deriving DecidableEq

/-- Embedding of getFrontendUrl from Backend/utils/urlConfig.js. -/
def getFrontendUrl (e : BackendEnv) : String :=
  if truthy e.FRONTEND_URL then e.FRONTEND_URL.getD ""
  else
    let nodeEnv := jsOr e.NODE_ENV "development"
    if nodeEnv = "production" then
      if truthy e.RENDER then
        "https://" ++ jsOr e.RENDER_SERVICE_NAME "whatsapp-feedback-fullstack"
          ++ ".onrender.com"
      else if truthy e.RENDER_EXTERNAL_URL then
        e.RENDER_EXTERNAL_URL.getD ""
      else
        "https://whatsapp-feedback-fullstack.onrender.com"
    else
      "http://localhost:5173"

/-- Embedding of getBackendUrl from Backend/utils/urlConfig.js. -/
def getBackendUrl (e : BackendEnv) : String :=
  let nodeEnv := jsOr e.NODE_ENV "development"
  let port := jsOr e.PORT "8080"
  let host := jsOr e.HOST "localhost"
  if nodeEnv = "production" then
    if truthy e.RENDER_EXTERNAL_URL then
      e.RENDER_EXTERNAL_URL.getD ""
    else
      "https://" ++ jsOr e.RENDER_SERVICE_NAME "whatsapp-feedback-fullstack"
        ++ ".onrender.com"
  else
    "http://" ++ host ++ ":" ++ port

/-- An entry of the CORS origin list: either an exact origin string, the
generic localhost-port regular expression, or one of the literal
platform-suffix regular expressions (we record the suffix it matches). -/
inductive Origin where
  | exact (s : String)
  | localhostPortPattern
  | suffixPattern (dom : String)
deriving DecidableEq

/-- JavaScript Boolean() truthiness of an origin entry used by the final
filter of getCorsOrigins: strings are falsy when empty, regular-expression
objects are always truthy. -/
def originTruthy (o : Origin) : Bool :=
  match o with
  | .exact s => s != ""
  | .localhostPortPattern => true
  | .suffixPattern _ => true

/-- Embedding of getCorsOrigins from Backend/utils/urlConfig.js. -/
def getCorsOrigins (e : BackendEnv) : List Origin :=
  let frontendUrl := getFrontendUrl e
  let nodeEnv := jsOr e.NODE_ENV "development"
  let origins : List Origin :=
    [ .exact frontendUrl,
      .exact "http://localhost:5173",
      .exact "http://localhost:5174",
      .exact "http://localhost:3000",
      .exact "http://localhost:5175",
      .localhostPortPattern,
      .suffixPattern ".onrender.com",
      .suffixPattern ".railway.app",
      .suffixPattern ".vercel.app",
      .suffixPattern ".netlify.app" ]
  let origins :=
    if nodeEnv = "development" then origins ++ [Origin.exact "*"] else origins
  origins.filter originTruthy

/-! ## Client-side resolver (frontend/src/config/urlConfig.ts) -/

/-- The snapshot read by the frontend module: the two Vite variables
(strings-or-undefined), the PROD and DEV build-mode booleans, and the
browser-provided window.location.host. -/
structure FrontendEnv where
  VITE_API_BASE_URL : Option String
  PROD : Bool
  DEV : Bool
  VITE_BACKEND_PORT : Option String
  locationHost : String
deriving DecidableEq

/-- Embedding of getApiBaseUrl from frontend/src/config/urlConfig.ts. -/
def getApiBaseUrl (e : FrontendEnv) : String :=
  if truthy e.VITE_API_BASE_URL then e.VITE_API_BASE_URL.getD ""
  else if e.PROD then
    let currentHost := e.locationHost
    if jsIncludes currentHost "onrender.com" then
      "https://" ++ currentHost ++ "/api"
    else if jsIncludes currentHost "railway.app" then
      "https://" ++ currentHost ++ "/api"
    else if jsIncludes currentHost "vercel.app" then
      "https://" ++ currentHost ++ "/api"
    else
      "/api"
  else
    let devBackendPort := jsOr e.VITE_BACKEND_PORT "8080"
    "http://localhost:" ++ devBackendPort ++ "/api"

/-- The inline regular-expression replacement apiUrl.replace of
getBackendBaseUrl: the pattern is anchored to the end of the string, so it
removes a final "/api" and does nothing otherwise. -/
def stripTrailingApi (s : String) : String :=
  if jsEndsWith s "/api" then String.mk (s.toList.take (s.toList.length - 4)) else s

/-- Embedding of getBackendBaseUrl from frontend/src/config/urlConfig.ts. -/
def getBackendBaseUrl (e : FrontendEnv) : String :=
  stripTrailingApi (getApiBaseUrl e)

/-- Embedding of getApiUrl from frontend/src/config/urlConfig.ts. -/
def getApiUrl (e : FrontendEnv) (endpoint : String) : String :=
  let baseUrl := getApiBaseUrl e
  let cleanEndpoint := if jsStartsWith endpoint "/" then endpoint else "/" ++ endpoint
  baseUrl ++ cleanEndpoint

/-- Embedding of getSseUrl from frontend/src/config/urlConfig.ts. -/
def getSseUrl (e : FrontendEnv) : String :=
  getApiUrl e "/events"

/-- Recogniser for the literal platform-suffix pattern entries of the CORS
origin list (as opposed to exact origins and the localhost-port pattern). -/
def isPlatformSuffixOrigin (o : Origin) : Bool :=
  match o with
  | .suffixPattern _ => true
  | _ => false

end UrlConfig

namespace UrlConfig

/-- Claim C1 as stated is false: in a production build with no override, the
code tests the platform suffixes with substring containment, not an
end-anchored match.  The host "onrender.company.example" ends with none of
the three suffixes, so the claim demands the relative path "/api", yet
getApiBaseUrl returns the absolute URL built from the host. -/
theorem C1_counterexample :
    getApiBaseUrl { VITE_API_BASE_URL := none, PROD := true, DEV := false,
                    VITE_BACKEND_PORT := none,
                    locationHost := "onrender.company.example" }
      = "https://onrender.company.example/api" ∧
    jsEndsWith "onrender.company.example" "onrender.com" = false ∧
    jsEndsWith "onrender.company.example" "railway.app" = false ∧
    jsEndsWith "onrender.company.example" "vercel.app" = false ∧
    "https://onrender.company.example/api" ≠ "/api" := by
  refine ⟨by decide, by decide, by decide, by decide, by decide⟩

/-- Claim C1, amended: in a production build with no explicit API-base
override set, getApiBaseUrl returns https://{host}/api exactly when the
current page host CONTAINS one of the three platform domain suffixes as a
substring, and returns "/api" for every other host. -/
theorem C1_production_host_detection (e : FrontendEnv)
    (hov : truthy e.VITE_API_BASE_URL = false) (hp : e.PROD = true) :
    getApiBaseUrl e =
      if jsIncludes e.locationHost "onrender.com"
          || jsIncludes e.locationHost "railway.app"
          || jsIncludes e.locationHost "vercel.app" then
        "https://" ++ e.locationHost ++ "/api"
      else "/api" := by
  cases h1 : jsIncludes e.locationHost "onrender.com" <;>
    cases h2 : jsIncludes e.locationHost "railway.app" <;>
      cases h3 : jsIncludes e.locationHost "vercel.app" <;>
        simp [getApiBaseUrl, hov, hp, h1, h2, h3]

/-- Concrete instantiation of the amended claim C1 on a Render host. -/
theorem C1_production_host_detection_witness :
    truthy (none : Option String) = false ∧
    getApiBaseUrl { VITE_API_BASE_URL := none, PROD := true, DEV := false,
                    VITE_BACKEND_PORT := none, locationHost := "myapp.onrender.com" }
      = if jsIncludes "myapp.onrender.com" "onrender.com"
            || jsIncludes "myapp.onrender.com" "railway.app"
            || jsIncludes "myapp.onrender.com" "vercel.app" then
          "https://" ++ "myapp.onrender.com" ++ "/api"
        else "/api" :=
  ⟨by decide,
    C1_production_host_detection
      { VITE_API_BASE_URL := none, PROD := true, DEV := false,
        VITE_BACKEND_PORT := none, locationHost := "myapp.onrender.com" }
      (by decide) (by decide)⟩

/-- Claim C4 as stated is false: a non-numeric backend-port override is not
treated as absent; getApiBaseUrl interpolates it verbatim, so the result is
not the default development URL. -/
theorem C4_counterexample :
    getApiBaseUrl { VITE_API_BASE_URL := none, PROD := false, DEV := true,
                    VITE_BACKEND_PORT := some "abc", locationHost := "" }
      = "http://localhost:abc/api" ∧
    "http://localhost:abc/api" ≠ "http://localhost:8080/api" := by
  refine ⟨by decide, by decide⟩

/-- Claim C4, amended: in a non-production build with no explicit API-base
override, getApiBaseUrl returns http://localhost:{P}/api where P is the
backend-port override used verbatim when set and non-empty (even when
non-numeric) and the default "8080" when the variable is unset or empty; as
a total function it never raises on missing or malformed input. -/
theorem C4_dev_port_fallback (e : FrontendEnv)
    (hov : truthy e.VITE_API_BASE_URL = false) (hp : e.PROD = false) :
    getApiBaseUrl e = "http://localhost:" ++ jsOr e.VITE_BACKEND_PORT "8080" ++ "/api" := by
  simp [getApiBaseUrl, hov, hp]

/-- Concrete instantiation of the amended claim C4 with the port variable
unset. -/
theorem C4_dev_port_fallback_witness :
    truthy (none : Option String) = false ∧
    getApiBaseUrl { VITE_API_BASE_URL := none, PROD := false, DEV := true,
                    VITE_BACKEND_PORT := none, locationHost := "" }
      = "http://localhost:" ++ jsOr none "8080" ++ "/api" :=
  ⟨by decide,
    C4_dev_port_fallback
      { VITE_API_BASE_URL := none, PROD := false, DEV := true,
        VITE_BACKEND_PORT := none, locationHost := "" }
      (by decide) (by decide)⟩

/-- Claim C5: a non-empty explicit override wins unconditionally: if the
backend variable FRONTEND_URL holds a non-empty string S then getFrontendUrl
returns exactly S, and if the frontend variable VITE_API_BASE_URL holds a
non-empty string S then getApiBaseUrl returns exactly S, regardless of every
other variable. -/
theorem C5_override_wins (eb : BackendEnv) (ef : FrontendEnv) (S : String)
    (hS : S ≠ "") (hb : eb.FRONTEND_URL = some S)
    (hf : ef.VITE_API_BASE_URL = some S) :
    getFrontendUrl eb = S ∧ getApiBaseUrl ef = S := by
  constructor
  · simp [getFrontendUrl, truthy, hb, hS]
  · simp [getApiBaseUrl, truthy, hf, hS]

/-- Concrete instantiation of claim C5 at the override value
https://custom.example. -/
theorem C5_override_wins_witness :
    ("https://custom.example" : String) ≠ "" ∧
    getFrontendUrl { FRONTEND_URL := some "https://custom.example",
                     NODE_ENV := some "production", RENDER := some "true",
                     RENDER_SERVICE_NAME := none, RENDER_EXTERNAL_URL := none,
                     PORT := none, HOST := none } = "https://custom.example" ∧
    getApiBaseUrl { VITE_API_BASE_URL := some "https://custom.example",
                    PROD := true, DEV := false, VITE_BACKEND_PORT := none,
                    locationHost := "myapp.onrender.com" } = "https://custom.example" := by
  refine ⟨by decide, ?_⟩
  have h := C5_override_wins
    { FRONTEND_URL := some "https://custom.example",
      NODE_ENV := some "production", RENDER := some "true",
      RENDER_SERVICE_NAME := none, RENDER_EXTERNAL_URL := none,
      PORT := none, HOST := none }
    { VITE_API_BASE_URL := some "https://custom.example",
      PROD := true, DEV := false, VITE_BACKEND_PORT := none,
      locationHost := "myapp.onrender.com" }
    "https://custom.example" (by decide) rfl rfl
  exact h

/-- Claim C8: getApiUrl on the endpoints "feedback" and "/feedback" returns
the base URL followed by "/feedback", with exactly the one slash the
function inserts and no further normalization: the result is the plain
concatenation of the base URL with "/feedback". -/
theorem C8_endpoint_join (e : FrontendEnv) :
    getApiUrl e "feedback" = getApiBaseUrl e ++ "/feedback" ∧
    getApiUrl e "/feedback" = getApiBaseUrl e ++ "/feedback" := by
  constructor
  · simp [getApiUrl, jsStartsWith]
  · simp [getApiUrl, jsStartsWith]

/-- Concrete instantiation of claim C8 in the default development
environment. -/
theorem C8_endpoint_join_witness :
    getApiUrl { VITE_API_BASE_URL := none, PROD := false, DEV := true,
                VITE_BACKEND_PORT := none, locationHost := "" } "feedback"
      = getApiBaseUrl { VITE_API_BASE_URL := none, PROD := false, DEV := true,
                        VITE_BACKEND_PORT := none, locationHost := "" } ++ "/feedback" ∧
    getApiUrl { VITE_API_BASE_URL := none, PROD := false, DEV := true,
                VITE_BACKEND_PORT := none, locationHost := "" } "/feedback"
      = getApiBaseUrl { VITE_API_BASE_URL := none, PROD := false, DEV := true,
                        VITE_BACKEND_PORT := none, locationHost := "" } ++ "/feedback" :=
  C8_endpoint_join
    { VITE_API_BASE_URL := none, PROD := false, DEV := true,
      VITE_BACKEND_PORT := none, locationHost := "" }

/-- Claim C9: getBackendUrl never reads the FRONTEND_URL variable, so two
environment snapshots that differ only in that variable produce the same
backend URL: the backend resolver has no explicit-override escape hatch. -/
theorem C9_backend_ignores_frontend_override (e : BackendEnv) (v : Option String) :
    getBackendUrl { e with FRONTEND_URL := v } = getBackendUrl e := rfl

/-- Claim C2 as stated is false: the CORS origin list built by
getCorsOrigins contains four platform-suffix pattern matchers (onrender.com,
railway.app, vercel.app and netlify.app), not exactly three. -/
theorem C2_counterexample :
    ((getCorsOrigins { FRONTEND_URL := none, NODE_ENV := none, RENDER := none,
                       RENDER_SERVICE_NAME := none, RENDER_EXTERNAL_URL := none,
                       PORT := none, HOST := none }).filter isPlatformSuffixOrigin).length
      ≠ 3 := by decide

/-- Claim C2, amended: for every environment snapshot, getCorsOrigins
includes the four fixed localhost origins and exactly FOUR platform-suffix
pattern matchers regardless of mode; in development mode it additionally
includes the wildcard sentinel; and it never contains an empty-string
entry. -/
theorem C2_origin_list_shape (e : BackendEnv) :
    Origin.exact "http://localhost:5173" ∈ getCorsOrigins e ∧
    Origin.exact "http://localhost:5174" ∈ getCorsOrigins e ∧
    Origin.exact "http://localhost:3000" ∈ getCorsOrigins e ∧
    Origin.exact "http://localhost:5175" ∈ getCorsOrigins e ∧
    ((getCorsOrigins e).filter isPlatformSuffixOrigin).length = 4 ∧
    (jsOr e.NODE_ENV "development" = "development" →
      Origin.exact "*" ∈ getCorsOrigins e) ∧
    Origin.exact "" ∉ getCorsOrigins e := by
  by_cases hd : jsOr e.NODE_ENV "development" = "development" <;>
    by_cases hf : getFrontendUrl e = "" <;>
      simp [getCorsOrigins, hd, hf, List.filter_cons, originTruthy,
        isPlatformSuffixOrigin, bne_iff_ne] <;>
        exact fun hc => hf hc.symm

/-- Concrete instantiation of the amended claim C2 in the default (empty)
environment. -/
theorem C2_origin_list_shape_witness :
    Origin.exact "http://localhost:5173"
        ∈ getCorsOrigins { FRONTEND_URL := none, NODE_ENV := none, RENDER := none,
                           RENDER_SERVICE_NAME := none, RENDER_EXTERNAL_URL := none,
                           PORT := none, HOST := none } ∧
    Origin.exact "http://localhost:5174"
        ∈ getCorsOrigins { FRONTEND_URL := none, NODE_ENV := none, RENDER := none,
                           RENDER_SERVICE_NAME := none, RENDER_EXTERNAL_URL := none,
                           PORT := none, HOST := none } ∧
    Origin.exact "http://localhost:3000"
        ∈ getCorsOrigins { FRONTEND_URL := none, NODE_ENV := none, RENDER := none,
                           RENDER_SERVICE_NAME := none, RENDER_EXTERNAL_URL := none,
                           PORT := none, HOST := none } ∧
    Origin.exact "http://localhost:5175"
        ∈ getCorsOrigins { FRONTEND_URL := none, NODE_ENV := none, RENDER := none,
                           RENDER_SERVICE_NAME := none, RENDER_EXTERNAL_URL := none,
                           PORT := none, HOST := none } ∧
    ((getCorsOrigins { FRONTEND_URL := none, NODE_ENV := none, RENDER := none,
                       RENDER_SERVICE_NAME := none, RENDER_EXTERNAL_URL := none,
                       PORT := none, HOST := none }).filter isPlatformSuffixOrigin).length = 4 ∧
    (jsOr none "development" = "development" →
      Origin.exact "*"
        ∈ getCorsOrigins { FRONTEND_URL := none, NODE_ENV := none, RENDER := none,
                           RENDER_SERVICE_NAME := none, RENDER_EXTERNAL_URL := none,
                           PORT := none, HOST := none }) ∧
    Origin.exact ""
        ∉ getCorsOrigins { FRONTEND_URL := none, NODE_ENV := none, RENDER := none,
                           RENDER_SERVICE_NAME := none, RENDER_EXTERNAL_URL := none,
                           PORT := none, HOST := none } :=
  C2_origin_list_shape
    { FRONTEND_URL := none, NODE_ENV := none, RENDER := none,
      RENDER_SERVICE_NAME := none, RENDER_EXTERNAL_URL := none,
      PORT := none, HOST := none }

/-- Claim C3 as stated is false: the wildcard is pushed only when the
resolved mode string equals the literal "development"; for the non-production
mode "test" no wildcard entry appears in the list at all, let alone as its
last element. -/
theorem C3_counterexample :
    (getCorsOrigins { FRONTEND_URL := none, NODE_ENV := some "test", RENDER := none,
                      RENDER_SERVICE_NAME := none, RENDER_EXTERNAL_URL := none,
                      PORT := none, HOST := none }).getLast?
        ≠ some (Origin.exact "*") ∧
    Origin.exact "*"
        ∉ getCorsOrigins { FRONTEND_URL := none, NODE_ENV := some "test", RENDER := none,
                           RENDER_SERVICE_NAME := none, RENDER_EXTERNAL_URL := none,
                           PORT := none, HOST := none } := by
  refine ⟨by decide, by decide⟩

/-- Claim C3, amended: the wildcard sentinel is appended as the last entry
exactly in the environments whose runtime-mode variable resolves to the
literal "development", that is, when NODE_ENV is unset, empty, or equal to
"development" (other non-production values such as "test" get no
wildcard). -/
theorem C3_wildcard_last_in_dev (e : BackendEnv)
    (h : jsOr e.NODE_ENV "development" = "development") :
    (getCorsOrigins e).getLast? = some (Origin.exact "*") := by
  by_cases hf : getFrontendUrl e = "" <;>
    simp [getCorsOrigins, h, hf, List.filter_cons, originTruthy, bne_iff_ne,
      List.getLast?]

/-- Concrete instantiation of the amended claim C3 with NODE_ENV unset. -/
theorem C3_wildcard_last_in_dev_witness :
    jsOr none "development" = "development" ∧
    (getCorsOrigins { FRONTEND_URL := none, NODE_ENV := none, RENDER := none,
                      RENDER_SERVICE_NAME := none, RENDER_EXTERNAL_URL := none,
                      PORT := none, HOST := none }).getLast?
      = some (Origin.exact "*") :=
  ⟨by decide,
    C3_wildcard_last_in_dev
      { FRONTEND_URL := none, NODE_ENV := none, RENDER := none,
        RENDER_SERVICE_NAME := none, RENDER_EXTERNAL_URL := none,
        PORT := none, HOST := none }
      (by decide)⟩

/-- Claim C6 as stated is false: the explicit FRONTEND_URL override has
higher priority than the mode branch, so with the mode variable unset but an
override present, getFrontendUrl returns the override, not the fixed local
development URL. -/
theorem C6_counterexample :
    getFrontendUrl { FRONTEND_URL := some "https://evil.example", NODE_ENV := none,
                     RENDER := none, RENDER_SERVICE_NAME := none,
                     RENDER_EXTERNAL_URL := none, PORT := none, HOST := none }
      = "https://evil.example" ∧
    ("https://evil.example" : String) ≠ "http://localhost:5173" := by
  refine ⟨by decide, by decide⟩

/-- Claim C6, amended: when the explicit frontend override is unset or empty
and the runtime-mode variable is unset or holds any value other than
"production", getFrontendUrl returns exactly http://localhost:5173. -/
theorem C6_dev_default (e : BackendEnv)
    (hov : truthy e.FRONTEND_URL = false)
    (h : e.NODE_ENV ≠ some "production") :
    getFrontendUrl e = "http://localhost:5173" := by
  have hm : jsOr e.NODE_ENV "development" ≠ "production" := by
    unfold jsOr
    cases hne : e.NODE_ENV with
    | none => decide
    | some s =>
      by_cases hs : s = "" <;> simp [hs]
      intro hsp
      exact h (by rw [hne, hsp])
  simp [getFrontendUrl, hov, hm]

/-- Concrete instantiation of the amended claim C6 with every variable
unset. -/
theorem C6_dev_default_witness :
    truthy (none : Option String) = false ∧
    (none : Option String) ≠ some "production" ∧
    getFrontendUrl { FRONTEND_URL := none, NODE_ENV := none, RENDER := none,
                     RENDER_SERVICE_NAME := none, RENDER_EXTERNAL_URL := none,
                     PORT := none, HOST := none }
      = "http://localhost:5173" :=
  ⟨by decide, by decide,
    C6_dev_default
      { FRONTEND_URL := none, NODE_ENV := none, RENDER := none,
        RENDER_SERVICE_NAME := none, RENDER_EXTERNAL_URL := none,
        PORT := none, HOST := none }
      (by decide) (by decide)⟩

/-- Claim C7: getBackendBaseUrl strips the trailing "/api" of the API base
URL only as an exact, case-sensitive, end-anchored suffix.  On a base URL
ending in "/api" the suffix is removed; a base URL where "/api" occurs only
mid-string is returned unchanged; any base URL not ending in "/api" is
returned unchanged; and the uppercase "/API" is not treated as a match. -/
theorem C7_strip_trailing_api (e1 e2 e3 e4 : FrontendEnv)
    (h1 : getApiBaseUrl e1 = "https://x.onrender.com/api")
    (h2 : getApiBaseUrl e2 = "https://x.onrender.com/api/legacy")
    (h3 : jsEndsWith (getApiBaseUrl e3) "/api" = false)
    (h4 : getApiBaseUrl e4 = "https://x.onrender.com/API") :
    getBackendBaseUrl e1 = "https://x.onrender.com" ∧
    getBackendBaseUrl e2 = getApiBaseUrl e2 ∧
    getBackendBaseUrl e3 = getApiBaseUrl e3 ∧
    getBackendBaseUrl e4 = getApiBaseUrl e4 := by
  refine ⟨?_, ?_, ?_, ?_⟩
  · unfold getBackendBaseUrl; rw [h1]; decide
  · unfold getBackendBaseUrl; rw [h2]; decide
  · unfold getBackendBaseUrl; simp [stripTrailingApi, h3]
  · unfold getBackendBaseUrl; rw [h4]; decide

/-- Concrete instantiation of claim C7 through the explicit override
variable, covering the trailing match, the mid-string occurrence, a URL with
no "/api" at the end, and the uppercase near-miss. -/
theorem C7_strip_trailing_api_witness :
    getApiBaseUrl { VITE_API_BASE_URL := some "https://x.onrender.com/api",
                    PROD := true, DEV := false, VITE_BACKEND_PORT := none,
                    locationHost := "" } = "https://x.onrender.com/api" ∧
    getApiBaseUrl { VITE_API_BASE_URL := some "https://x.onrender.com/api/legacy",
                    PROD := true, DEV := false, VITE_BACKEND_PORT := none,
                    locationHost := "" } = "https://x.onrender.com/api/legacy" ∧
    jsEndsWith (getApiBaseUrl { VITE_API_BASE_URL := some "http://localhost:9090",
                                PROD := true, DEV := false, VITE_BACKEND_PORT := none,
                                locationHost := "" }) "/api" = false ∧
    getApiBaseUrl { VITE_API_BASE_URL := some "https://x.onrender.com/API",
                    PROD := true, DEV := false, VITE_BACKEND_PORT := none,
                    locationHost := "" } = "https://x.onrender.com/API" ∧
    (getBackendBaseUrl { VITE_API_BASE_URL := some "https://x.onrender.com/api",
                         PROD := true, DEV := false, VITE_BACKEND_PORT := none,
                         locationHost := "" } = "https://x.onrender.com" ∧
     getBackendBaseUrl { VITE_API_BASE_URL := some "https://x.onrender.com/api/legacy",
                         PROD := true, DEV := false, VITE_BACKEND_PORT := none,
                         locationHost := "" }
       = getApiBaseUrl { VITE_API_BASE_URL := some "https://x.onrender.com/api/legacy",
                         PROD := true, DEV := false, VITE_BACKEND_PORT := none,
                         locationHost := "" } ∧
     getBackendBaseUrl { VITE_API_BASE_URL := some "http://localhost:9090",
                         PROD := true, DEV := false, VITE_BACKEND_PORT := none,
                         locationHost := "" }
       = getApiBaseUrl { VITE_API_BASE_URL := some "http://localhost:9090",
                         PROD := true, DEV := false, VITE_BACKEND_PORT := none,
                         locationHost := "" } ∧
     getBackendBaseUrl { VITE_API_BASE_URL := some "https://x.onrender.com/API",
                         PROD := true, DEV := false, VITE_BACKEND_PORT := none,
                         locationHost := "" }
       = getApiBaseUrl { VITE_API_BASE_URL := some "https://x.onrender.com/API",
                         PROD := true, DEV := false, VITE_BACKEND_PORT := none,
                         locationHost := "" }) :=
  ⟨by decide, by decide, by decide, by decide,
    C7_strip_trailing_api
      { VITE_API_BASE_URL := some "https://x.onrender.com/api",
        PROD := true, DEV := false, VITE_BACKEND_PORT := none, locationHost := "" }
      { VITE_API_BASE_URL := some "https://x.onrender.com/api/legacy",
        PROD := true, DEV := false, VITE_BACKEND_PORT := none, locationHost := "" }
      { VITE_API_BASE_URL := some "http://localhost:9090",
        PROD := true, DEV := false, VITE_BACKEND_PORT := none, locationHost := "" }
      { VITE_API_BASE_URL := some "https://x.onrender.com/API",
        PROD := true, DEV := false, VITE_BACKEND_PORT := none, locationHost := "" }
      (by decide) (by decide) (by decide) (by decide)⟩

/-- Claim C10: in production mode, when neither the frontend override
variable nor the platform external-URL variable holds the literal "*", the
CORS origin list computed by getCorsOrigins contains no wildcard entry. -/
theorem C10_no_wildcard_in_production (e : BackendEnv)
    (hm : e.NODE_ENV = some "production")
    (hf : e.FRONTEND_URL ≠ some "*")
    (hx : e.RENDER_EXTERNAL_URL ≠ some "*") :
    Origin.exact "*" ∉ getCorsOrigins e := by
  have hfu : getFrontendUrl e ≠ "*" := by
    unfold getFrontendUrl
    rw [hm]
    by_cases ht : truthy e.FRONTEND_URL = true
    · rw [if_pos ht]
      cases hne : e.FRONTEND_URL with
      | none => rw [hne] at ht; simp [truthy] at ht
      | some s =>
        simp only [Option.getD_some]
        intro hs
        exact hf (by rw [hne, hs])
    · rw [if_neg ht]
      have hjs : jsOr (some "production") "development" = "production" := by decide
      rw [hjs, if_pos rfl]
      by_cases hr : truthy e.RENDER = true
      · rw [if_pos hr]
        intro hc
        have hlen := congrArg String.length hc
        simp only [String.length_append] at hlen
        have l1 : "https://".length = 8 := by decide
        have l2 : ".onrender.com".length = 13 := by decide
        have l3 : "*".length = 1 := by decide
        rw [l1, l2, l3] at hlen
        omega
      · rw [if_neg hr]
        by_cases hu : truthy e.RENDER_EXTERNAL_URL = true
        · rw [if_pos hu]
          cases hnu : e.RENDER_EXTERNAL_URL with
          | none => rw [hnu] at hu; simp [truthy] at hu
          | some s =>
            simp only [Option.getD_some]
            intro hs
            exact hx (by rw [hnu, hs])
        · rw [if_neg hu]
          decide
  intro hmem
  unfold getCorsOrigins at hmem
  rw [hm] at hmem
  have hjs : jsOr (some "production") "development" = "production" := by decide
  rw [hjs] at hmem
  simp [List.mem_filter] at hmem
  exact hfu hmem.1.symm

/-- Concrete instantiation of claim C10 in a minimal production
environment. -/
theorem C10_no_wildcard_in_production_witness :
    (some "production" : Option String) = some "production" ∧
    (none : Option String) ≠ some "*" ∧
    Origin.exact "*"
      ∉ getCorsOrigins { FRONTEND_URL := none, NODE_ENV := some "production",
                         RENDER := none, RENDER_SERVICE_NAME := none,
                         RENDER_EXTERNAL_URL := none, PORT := none, HOST := none } :=
  ⟨rfl, by decide,
    C10_no_wildcard_in_production
      { FRONTEND_URL := none, NODE_ENV := some "production", RENDER := none,
        RENDER_SERVICE_NAME := none, RENDER_EXTERNAL_URL := none,
        PORT := none, HOST := none }
      rfl (by decide) (by decide)⟩

/-- Concrete instantiation of claim C9: setting FRONTEND_URL leaves the
backend URL unchanged. -/
theorem C9_backend_ignores_frontend_override_witness :
    getBackendUrl { FRONTEND_URL := some "https://other.example",
                    NODE_ENV := some "production", RENDER := none,
                    RENDER_SERVICE_NAME := none, RENDER_EXTERNAL_URL := none,
                    PORT := none, HOST := none }
      = getBackendUrl { FRONTEND_URL := none,
                        NODE_ENV := some "production", RENDER := none,
                        RENDER_SERVICE_NAME := none, RENDER_EXTERNAL_URL := none,
                        PORT := none, HOST := none } :=
  C9_backend_ignores_frontend_override
    { FRONTEND_URL := none, NODE_ENV := some "production", RENDER := none,
      RENDER_SERVICE_NAME := none, RENDER_EXTERNAL_URL := none,
      PORT := none, HOST := none }
    (some "https://other.example")

end UrlConfig
